import Mathlib

/-!
Verification of the trigger-normalization layer of the `lambda-http` crate
and two example handlers, against the repository's specification.

The embedding translates `lambda-http/src/lib.rs` (the `Adapter` service and
the `TransformResponse` two-state future), the `http-query-parameters`
example handler and the `basic-s3-thumbnail` example handler directly from
the source.  The request normalizer, response denormalizer, capability
extensions and base64/UTF-8 codecs live in crate files that are not part of
the sources under verification (`request.rs`, `response.rs`, `ext.rs` and
external crates); those are modelled from the specification and each such
definition says so in its doc comment.
-/

namespace LambdaHttp

/-! ## Base64 codec

Modelled from the spec: the `base64` crate used by the normalizer and
denormalizer is external.  Standard alphabet, padded, strict decoding. -/

/-- The 64 characters of the standard base64 alphabet: the uppercase
letters, the lowercase letters, the digits, then `+` and `/`. -/
def b64alphabet : List Char :=
  (List.range 26).map (fun i => Char.ofNat (65 + i)) ++
  (List.range 26).map (fun i => Char.ofNat (97 + i)) ++
  (List.range 10).map (fun i => Char.ofNat (48 + i)) ++ ['+', '/']

/-- Character for a sextet value. -/
def encChar (n : Nat) : Char := b64alphabet.getD n 'A'

def decCharAux : List Char → Nat → Char → Option Nat
  | [], _, _ => none
  | a :: rest, i, c => if a = c then some i else decCharAux rest (i + 1) c

/-- Sextet value of an alphabet character, `none` for a non-alphabet character. -/
def decChar (c : Char) : Option Nat := decCharAux b64alphabet 0 c

/-- Base64 encoding of a byte sequence (bytes as `Nat` < 256), with padding. -/
def b64encode : List Nat → List Char
  | [] => []
  | [a] => [encChar (a / 4), encChar (a % 4 * 16), '=', '=']
  | [a, b] => [encChar (a / 4), encChar (a % 4 * 16 + b / 16), encChar (b % 16 * 4), '=']
  | a :: b :: c :: rest =>
      encChar (a / 4) :: encChar (a % 4 * 16 + b / 16) ::
      encChar (b % 16 * 4 + c / 64) :: encChar (c % 64) :: b64encode rest

/-- Strict base64 decoding: length must be a multiple of four, padding only in
the final quantum, trailing bits must be zero. -/
def b64decode : List Char → Option (List Nat)
  | [] => some []
  | w :: x :: y :: z :: rest =>
      match decChar w, decChar x with
      | some dw, some dx =>
          if y = '=' then
            if z = '=' ∧ rest = [] ∧ dx % 16 = 0 then some [dw * 4 + dx / 16] else none
          else
            match decChar y with
            | some dy =>
                if z = '=' then
                  if rest = [] ∧ dy % 4 = 0 then
                    some [dw * 4 + dx / 16, dx % 16 * 16 + dy / 4]
                  else none
                else
                  match decChar z with
                  | some dz =>
                      (b64decode rest).map
                        (fun bs => (dw * 4 + dx / 16) :: (dx % 16 * 16 + dy / 4) ::
                                   (dy % 4 * 64 + dz) :: bs)
                  | none => none
            | none => none
      | _, _ => none
  | _ => none

/-! ## UTF-8 codec

Modelled from the spec: the denormalizer must decide whether response body
bytes are "valid UTF-8 text"; the actual validation lives in the standard
library / `response.rs`, outside the sources under verification. -/

/-- UTF-8 encoding of one scalar value. -/
def utf8EncodeChar (ch : Char) : List Nat :=
  let n := ch.toNat
  if n < 128 then [n]
  else if n < 2048 then [192 + n / 64, 128 + n % 64]
  else if n < 65536 then [224 + n / 4096, 128 + n / 64 % 64, 128 + n % 64]
  else [240 + n / 262144, 128 + n / 4096 % 64, 128 + n / 64 % 64, 128 + n % 64]

/-- UTF-8 encoding of a string into bytes. -/
def utf8Encode (s : String) : List Nat := (s.data.map utf8EncodeChar).flatten

/-- Strict UTF-8 decoding: rejects overlong forms, surrogates and
out-of-range scalars. `none` means the bytes are not valid UTF-8 text. -/
def utf8Decode : List Nat → Option (List Char)
  | [] => some []
  | b :: rest =>
      if b < 128 then
        (utf8Decode rest).map (fun cs => Char.ofNat b :: cs)
      else if 194 ≤ b ∧ b ≤ 223 then
        match rest with
        | c :: rest2 =>
            if 128 ≤ c ∧ c ≤ 191 then
              (utf8Decode rest2).map (fun cs => Char.ofNat ((b - 192) * 64 + (c - 128)) :: cs)
            else none
        | _ => none
      else if 224 ≤ b ∧ b ≤ 239 then
        match rest with
        | c :: d :: rest3 =>
            if (if b = 224 then 160 ≤ c ∧ c ≤ 191
                else if b = 237 then 128 ≤ c ∧ c ≤ 159
                else 128 ≤ c ∧ c ≤ 191) ∧ 128 ≤ d ∧ d ≤ 191 then
              (utf8Decode rest3).map
                (fun cs => Char.ofNat ((b - 224) * 4096 + (c - 128) * 64 + (d - 128)) :: cs)
            else none
        | _ => none
      else if 240 ≤ b ∧ b ≤ 244 then
        match rest with
        | c :: d :: e :: rest4 =>
            if (if b = 240 then 144 ≤ c ∧ c ≤ 191
                else if b = 244 then 128 ≤ c ∧ c ≤ 143
                else 128 ≤ c ∧ c ≤ 191) ∧ 128 ≤ d ∧ d ≤ 191 ∧ 128 ≤ e ∧ e ≤ 191 then
              (utf8Decode rest4).map
                (fun cs => Char.ofNat ((b - 240) * 262144 + (c - 128) * 4096 +
                                       (d - 128) * 64 + (e - 128)) :: cs)
            else none
        | _ => none
      else none

/-! ## Origin tags and the canonical request/response model -/

/-- Origin tag: which trigger produced the invocation.  From `request.rs`
(`RequestOrigin`); the variant set is fixed by the spec's data model. -/
inductive RequestOrigin
  | ApiGatewayV1
  | ApiGatewayV2
  | Alb
  | WebSocket
  deriving DecidableEq, Repr

/-- Ordered multi-valued query-parameter collection (`QueryMap`). -/
abbrev QueryMap := List (String × List String)

/-- Modelled from the spec: `ext.rs` all-values accessor — every value
recorded for a key, in insertion order. -/
def QueryMap.allValues (m : QueryMap) (k : String) : List String :=
  (List.filter (fun p => p.1 = k) m).flatMap (fun p => p.2)

/-- Modelled from the spec: `ext.rs` first-value accessor ("first wins"). -/
def QueryMap.first (m : QueryMap) (k : String) : Option String :=
  (QueryMap.allValues m k).head?

/-- Opaque per-invocation execution context supplied by the external loop. -/
structure LambdaContext where
  request_id : String
  deriving DecidableEq, Repr

/-- Canonical HTTP request (`http::Request<Body>` with the attached-context
slot of the spec: query map and lambda context ride along as extensions). -/
structure Request where
  method : String
  path : String
  query : QueryMap
  headers : List (String × String)
  body : List Nat
  context : Option LambdaContext
  deriving DecidableEq

/-- `RequestExt::with_lambda_context`: attach the execution context. -/
def Request.with_lambda_context (r : Request) (ctx : LambdaContext) : Request :=
  { r with context := some ctx }

/-- Modelled from the spec: `RequestExt::query_string_parameters_ref` returns
the query-map extension, or no value when the request carried no parameters. -/
def Request.query_string_parameters_ref (r : Request) : Option QueryMap :=
  if r.query.isEmpty then none else some r.query

/-- Canonical HTTP response: status, multi-valued headers, byte body. -/
structure CanonicalResponse where
  status : Nat
  headers : List (String × List String)
  body : List Nat
  deriving DecidableEq

/-! ## Origin envelopes (request side)

Modelled from the spec: `request.rs` (`LambdaRequest` and the aws event
shapes) is not among the sources; the variants hold the fields the spec's
data model names, with the body already validated/decoded to raw bytes. -/

structure ApiGatewayProxyRequest where
  http_method : String
  path : String
  query_string_parameters : List (String × String)
  multi_value_query_string_parameters : List (String × List String)
  headers : List (String × String)
  body : List Nat
  deriving DecidableEq

structure ApiGatewayV2httpRequest where
  method : String
  raw_path : String
  query_string_parameters : List (String × String)
  headers : List (String × String)
  body : List Nat
  deriving DecidableEq

structure AlbTargetGroupRequest where
  http_method : String
  path : String
  query_string_parameters : List (String × String)
  multi_value_query_string_parameters : List (String × List String)
  headers : List (String × String)
  body : List Nat
  deriving DecidableEq

structure ApiGatewayWebsocketProxyRequest where
  http_method : String
  path : String
  query_string_parameters : List (String × String)
  connection_id : Option String
  headers : List (String × String)
  body : List Nat
  deriving DecidableEq

/-- Tagged union of the supported trigger envelopes (`LambdaRequest`). -/
inductive LambdaRequest
  | ApiGatewayV1 (r : ApiGatewayProxyRequest)
  | ApiGatewayV2 (r : ApiGatewayV2httpRequest)
  | Alb (r : AlbTargetGroupRequest)
  | WebSocket (r : ApiGatewayWebsocketProxyRequest)
  deriving DecidableEq

/-- `LambdaRequest::request_origin`: the Origin tag of the envelope variant. -/
def LambdaRequest.request_origin : LambdaRequest → RequestOrigin
  | .ApiGatewayV1 _ => .ApiGatewayV1
  | .ApiGatewayV2 _ => .ApiGatewayV2
  | .Alb _ => .Alb
  | .WebSocket _ => .WebSocket

/-- Merge multi-value and single-value query parameters into one ordered
multi-valued collection, preserving duplicates (spec §4.1 step 3). -/
def mergeQuery (multi : List (String × List String)) (single : List (String × String)) :
    QueryMap :=
  multi ++ single.map (fun p => (p.1, [p.2]))

/-- `From<LambdaRequest> for Request`: forget the envelope shape, keeping the
canonical method, URI parts, merged query collection, headers and byte body. -/
def LambdaRequest.toRequest : LambdaRequest → Request
  | .ApiGatewayV1 r =>
      { method := r.http_method, path := r.path,
        query := mergeQuery r.multi_value_query_string_parameters r.query_string_parameters,
        headers := r.headers, body := r.body, context := none }
  | .ApiGatewayV2 r =>
      { method := r.method, path := r.raw_path,
        query := mergeQuery [] r.query_string_parameters,
        headers := r.headers, body := r.body, context := none }
  | .Alb r =>
      { method := r.http_method, path := r.path,
        query := mergeQuery r.multi_value_query_string_parameters r.query_string_parameters,
        headers := r.headers, body := r.body, context := none }
  | .WebSocket r =>
      { method := r.http_method, path := r.path,
        query := mergeQuery [] r.query_string_parameters,
        headers := r.headers, body := r.body, context := none }

/-! ## Incoming JSON envelopes and the request normalizer

Modelled from the spec: the wire envelopes are JSON-shaped and the four
supported shapes are distinguished structurally by field presence (spec §6);
the shape detection and field extraction live in `request.rs`, outside the
sources under verification. -/

/-- JSON values, as far as the envelope shapes need them. -/
inductive Json
  | null
  | bool (b : Bool)
  | num (n : Int)
  | str (s : String)
  | arr (elems : List Json)
  | obj (fields : List (String × Json))

/-- Object field lookup. -/
def Json.get? : Json → String → Option Json
  | .obj fields, k => (fields.find? (fun p => p.1 = k)).map (fun p => p.2)
  | _, _ => none

def Json.asStr? : Json → Option String
  | .str s => some s
  | _ => none

/-- String-valued field. -/
def Json.strField? (j : Json) (k : String) : Option String :=
  (j.get? k).bind Json.asStr?

/-- String-valued field with a default. -/
def Json.strFieldD (j : Json) (k : String) (d : String) : String :=
  (j.strField? k).getD d

/-- Boolean field with a default. -/
def Json.boolFieldD (j : Json) (k : String) (d : Bool) : Bool :=
  match j.get? k with
  | some (.bool b) => b
  | _ => d

/-- An object of string values, as a pair list (absent field ↦ `[]`). -/
def Json.strPairsD (j : Json) (k : String) : List (String × String) :=
  match j.get? k with
  | some (.obj fields) =>
      fields.filterMap (fun p =>
        match p.2 with
        | .str s => some (p.1, s)
        | _ => none)
  | _ => []

/-- An object of string-array values, as a pair list (absent field ↦ `[]`). -/
def Json.strListPairsD (j : Json) (k : String) : List (String × List String) :=
  match j.get? k with
  | some (.obj fields) =>
      fields.filterMap (fun p =>
        match p.2 with
        | .arr elems => some (p.1, elems.filterMap Json.asStr?)
        | _ => none)
  | _ => []

/-- Modelled from the spec: identify the Origin tag by envelope shape, using
fields present only in one variant (spec §4.1 step 1). -/
def detectOrigin (j : Json) : Option RequestOrigin :=
  match j.get? "requestContext" with
  | none => none
  | some rc =>
      if (rc.get? "elb").isSome then some .Alb
      else if (rc.get? "connectionId").isSome then some .WebSocket
      else if (rc.get? "http").isSome then some .ApiGatewayV2
      else if (j.get? "httpMethod").isSome then some .ApiGatewayV1
      else none

/-- Modelled from the spec: decode the envelope body (spec §4.1 step 2) — if
flagged base64, decode to raw bytes (failure → structural parse error);
otherwise the text's bytes are taken unchanged. -/
def decodeEnvelopeBody (j : Json) : Except String (List Nat) :=
  match j.strField? "body" with
  | none => Except.ok []
  | some s =>
      if j.boolFieldD "isBase64Encoded" false then
        match b64decode s.data with
        | some bytes => Except.ok bytes
        | none => Except.error "StructuralParseError: invalid base64 body"
      else Except.ok (utf8Encode s)

/-- Modelled from the spec: the request normalizer (`request.rs`) — parse an
origin envelope into the tagged `LambdaRequest`, or fail with a structural
parse error.  Method and path are required fields for the REST-shaped
origins; the gateway-v2 method lives under `requestContext.http`. -/
def normalize (j : Json) : Except String LambdaRequest :=
  match detectOrigin j with
  | none => Except.error "StructuralParseError: unrecognized envelope shape"
  | some origin =>
      match decodeEnvelopeBody j with
      | Except.error e => Except.error e
      | Except.ok bytes =>
          match origin with
          | .Alb =>
              match j.strField? "httpMethod", j.strField? "path" with
              | some m, some p =>
                  Except.ok (.Alb
                    { http_method := m, path := p,
                      query_string_parameters := j.strPairsD "queryStringParameters",
                      multi_value_query_string_parameters :=
                        j.strListPairsD "multiValueQueryStringParameters",
                      headers := j.strPairsD "headers", body := bytes })
              | _, _ => Except.error "StructuralParseError: missing method or path"
          | .ApiGatewayV1 =>
              match j.strField? "httpMethod", j.strField? "path" with
              | some m, some p =>
                  Except.ok (.ApiGatewayV1
                    { http_method := m, path := p,
                      query_string_parameters := j.strPairsD "queryStringParameters",
                      multi_value_query_string_parameters :=
                        j.strListPairsD "multiValueQueryStringParameters",
                      headers := j.strPairsD "headers", body := bytes })
              | _, _ => Except.error "StructuralParseError: missing method or path"
          | .ApiGatewayV2 =>
              match (j.get? "requestContext").bind (fun rc => rc.get? "http") with
              | some http =>
                  match http.strField? "method" with
                  | some m =>
                      Except.ok (.ApiGatewayV2
                        { method := m, raw_path := j.strFieldD "rawPath" "/",
                          query_string_parameters := j.strPairsD "queryStringParameters",
                          headers := j.strPairsD "headers", body := bytes })
                  | none => Except.error "StructuralParseError: missing method"
              | none => Except.error "StructuralParseError: unrecognized envelope shape"
          | .WebSocket =>
              Except.ok (.WebSocket
                { http_method := j.strFieldD "httpMethod" "",
                  path := j.strFieldD "path" "/",
                  query_string_parameters := j.strPairsD "queryStringParameters",
                  connection_id :=
                    (j.get? "requestContext").bind (fun rc => rc.strField? "connectionId"),
                  headers := j.strPairsD "headers", body := bytes })

/-! ## Origin envelopes (reply side) and the response denormalizer

Modelled from the spec: `response.rs` (`LambdaResponse` and
`from_response`) is not among the sources.  Per spec §4.3: origins without
multi-value header support collapse each key to its last value and omit the
multi-value field; the body is emitted as plain text with the base64 flag
false exactly when its bytes are valid UTF-8, else base64-encoded with the
flag true — re-derived from content only. -/

structure AlbTargetGroupResponse where
  status_code : Nat
  headers : List (String × String)
  multi_value_headers : List (String × List String)
  body : Option String
  is_base64_encoded : Bool
  deriving DecidableEq

structure ApiGatewayProxyResponse where
  status_code : Nat
  headers : List (String × String)
  multi_value_headers : List (String × List String)
  body : Option String
  is_base64_encoded : Bool
  deriving DecidableEq

structure ApiGatewayV2httpResponse where
  status_code : Nat
  headers : List (String × String)
  body : Option String
  is_base64_encoded : Bool
  deriving DecidableEq

/-- Tagged union of the reply envelope shapes (`LambdaResponse`).  The
websocket origin replies with the gateway-v1 proxy shape. -/
inductive LambdaResponse
  | Alb (r : AlbTargetGroupResponse)
  | ApiGatewayV1 (r : ApiGatewayProxyResponse)
  | ApiGatewayV2 (r : ApiGatewayV2httpResponse)
  | WebSocket (r : ApiGatewayProxyResponse)
  deriving DecidableEq

/-- The Origin tag a reply envelope is shaped for. -/
def LambdaResponse.variant : LambdaResponse → RequestOrigin
  | .Alb _ => .Alb
  | .ApiGatewayV1 _ => .ApiGatewayV1
  | .ApiGatewayV2 _ => .ApiGatewayV2
  | .WebSocket _ => .WebSocket

/-- The base64 flag of a reply envelope. -/
def LambdaResponse.is_base64_encoded : LambdaResponse → Bool
  | .Alb r => r.is_base64_encoded
  | .ApiGatewayV1 r => r.is_base64_encoded
  | .ApiGatewayV2 r => r.is_base64_encoded
  | .WebSocket r => r.is_base64_encoded

/-- The body field of a reply envelope. -/
def LambdaResponse.bodyField : LambdaResponse → Option String
  | .Alb r => r.body
  | .ApiGatewayV1 r => r.body
  | .ApiGatewayV2 r => r.body
  | .WebSocket r => r.body

/-- The status code of a reply envelope. -/
def LambdaResponse.statusCode : LambdaResponse → Nat
  | .Alb r => r.status_code
  | .ApiGatewayV1 r => r.status_code
  | .ApiGatewayV2 r => r.status_code
  | .WebSocket r => r.status_code

/-- Collapse multi-valued headers to the last written value per key
(spec §4.3 tie-break: last write wins). -/
def collapseHeaders (hs : List (String × List String)) : List (String × String) :=
  hs.filterMap (fun p => (p.2.getLast?).map (fun v => (p.1, v)))

/-- Body field and base64 flag for a canonical response body, derived from
the body content only. -/
def encodeResponseBody (body : List Nat) : Option String × Bool :=
  match utf8Decode body with
  | some chars => (some (String.mk chars), false)
  | none => (some (String.mk (b64encode body)), true)

/-- `LambdaResponse::from_response`: denormalize a canonical response for the
recorded origin (modelled from the spec, `response.rs` not in the sources).
It takes only the origin tag and the canonical response — the incoming
request (and in particular its base64 flag) is not an input. -/
def LambdaResponse.from_response (origin : RequestOrigin) (resp : CanonicalResponse) :
    LambdaResponse :=
  let bf := encodeResponseBody resp.body
  match origin with
  | .Alb =>
      .Alb { status_code := resp.status, headers := collapseHeaders resp.headers,
             multi_value_headers := resp.headers, body := bf.1,
             is_base64_encoded := bf.2 }
  | .ApiGatewayV1 =>
      .ApiGatewayV1 { status_code := resp.status, headers := collapseHeaders resp.headers,
                      multi_value_headers := resp.headers, body := bf.1,
                      is_base64_encoded := bf.2 }
  | .ApiGatewayV2 =>
      .ApiGatewayV2 { status_code := resp.status, headers := collapseHeaders resp.headers,
                      body := bf.1, is_base64_encoded := bf.2 }
  | .WebSocket =>
      .WebSocket { status_code := resp.status, headers := collapseHeaders resp.headers,
                   multi_value_headers := resp.headers, body := bf.1,
                   is_base64_encoded := bf.2 }

/-! ## Futures, the `TransformResponse` state machine and the `Adapter`

Embedded from `lambda-http/src/lib.rs`.  A future is modelled as a unit of
work that returns `Pending` a fixed number of times before completing with
its result; polling a pending future advances it by one step.  The state
machine's `poll` is translated clause by clause from the source; the third
component of its result counts how many times an inner future was polled
during the resumption (one per `as_mut().poll(cx)` call in the source),
which is the observable the spec's "advances exactly one inner unit of
work" sentence talks about. -/

/-- Result of polling a future. -/
inductive Poll (α : Type) where
  | Ready (a : α)
  | Pending
  deriving DecidableEq

/-- A suspendable unit of work: `pending` remaining suspensions, then the
result. -/
structure Fut (α : Type) where
  pending : Nat
  result : α
  deriving DecidableEq

/-- Poll a future: ready when no suspensions remain, otherwise consume one. -/
def Fut.poll : Fut α → Poll α × Fut α
  | ⟨0, r⟩ => (.Ready r, ⟨0, r⟩)
  | ⟨n + 1, r⟩ => (.Pending, ⟨n, r⟩)

deriving instance DecidableEq for Except

/-- `TransformResponse<R, E>`: the two-state future driving the
service-call → response-conversion pipeline (`lib.rs` lines 102–105). -/
inductive TransformResponse (R E : Type) where
  | Request (origin : RequestOrigin) (request : Fut (Except E R))
  | Response (origin : RequestOrigin) (response : Fut CanonicalResponse)
  deriving DecidableEq

/-- The Origin tag currently carried by the state machine. -/
def TransformResponse.origin : TransformResponse R E → RequestOrigin
  | .Request o _ => o
  | .Response o _ => o

/-- Whether the machine is in the awaiting-handler state. -/
def TransformResponse.isRequestState : TransformResponse R E → Bool
  | .Request _ _ => true
  | .Response _ _ => false

def TransformResponse.rank : TransformResponse R E → Nat
  | .Request _ _ => 1
  | .Response _ _ => 0

/-- `TransformResponse::poll` (`lib.rs` lines 113–128).  `ir` is the
`IntoResponse` conversion of the handler's success type: in the source,
`resp.into_response()` yields the `ResponseFuture` the `Response` state
holds.  Returns the poll result, the machine state after the resumption and
the number of inner-future polls performed during it. -/
def TransformResponse.poll (ir : R → Fut CanonicalResponse) :
    TransformResponse R E → Poll (Except E LambdaResponse) × TransformResponse R E × Nat
  | .Request origin request =>
      match request.poll with
      | (.Ready (.ok resp), _) =>
          let next := TransformResponse.poll ir (.Response origin (ir resp))
          (next.1, next.2.1, next.2.2 + 1)
      | (.Ready (.error err), request2) =>
          (.Ready (.error err), .Request origin request2, 1)
      | (.Pending, request2) => (.Pending, .Request origin request2, 1)
  | .Response origin response =>
      match response.poll with
      | (.Ready resp, response2) =>
          (.Ready (.ok (LambdaResponse.from_response origin resp)),
           .Response origin response2, 1)
      | (.Pending, response2) => (.Pending, .Response origin response2, 1)
  termination_by s => s.rank
  decreasing_by simp [TransformResponse.rank]

/-- A `Service<Request>`: a readiness check and a call producing a
suspendable unit of work. -/
structure Svc (R E : Type) where
  ready : Nat → Poll (Except E Unit)
  call : Request → Fut (Except E R)

/-- `LambdaEvent`: payload plus the execution context from the external
loop. -/
structure LambdaEvent (P : Type) where
  payload : P
  context : LambdaContext

/-- `Adapter<R, S>`: wraps a `Service<Request>` as a
`Service<LambdaEvent<LambdaRequest>>` (`lib.rs` lines 135–138). -/
structure Adapter (R E : Type) where
  service : Svc R E

/-- `Adapter::poll_ready` (`lib.rs` lines 164–166): forwards to the wrapped
service. -/
def Adapter.poll_ready (a : Adapter R E) (cx : Nat) : Poll (Except E Unit) :=
  a.service.ready cx

/-- `Adapter::call` (`lib.rs` lines 168–174): record the origin tag, convert
the envelope into the canonical request carrying the lambda context, start
the wrapped service's work and enter the `Request` state. -/
def Adapter.call (a : Adapter R E) (req : LambdaEvent LambdaRequest) :
    TransformResponse R E :=
  let request_origin := req.payload.request_origin
  let event : Request := req.payload.toRequest
  let fut := a.service.call (event.with_lambda_context req.context)
  TransformResponse.Request request_origin fut

/-- Modelled from the spec (§4.4): the adapter invoked on a raw JSON
envelope — normalization happens first and synchronously; a normalization
failure is an immediate error and the wrapped handler is not started. -/
def adapterCallRaw (a : Adapter R E) (j : Json) (ctx : LambdaContext) :
    Except String (TransformResponse R E) :=
  match normalize j with
  | Except.error e => Except.error e
  | Except.ok payload => Except.ok (a.call { payload := payload, context := ctx })

/-! ## The `http-query-parameters` example handler

Embedded from `examples/http-query-parameters/src/main.rs`.  The handler's
error type is the runtime's boxed `Error`, modelled as `String`. -/

/-- `IntoResponse for String` (modelled from the spec: a plain-string result
renders with default status 200 and the string as body, immediately). -/
def stringIntoResponse (s : String) : Fut CanonicalResponse :=
  ⟨0, { status := 200, headers := [], body := utf8Encode s }⟩

/-- Awaiting an in-flight unit of work inside a handler yields its result. -/
def Fut.await (f : Fut α) : α := f.result

namespace HttpQueryParameters

/-- `function_handler` (`examples/http-query-parameters/src/main.rs` lines
7–21): greet the caller named by the `first_name` query parameter, or answer
400 `Empty first name` when it is absent. -/
def function_handler (event : Request) : Except String CanonicalResponse :=
  Except.ok
    (match event.query_string_parameters_ref.bind
        (fun params => QueryMap.first params "first_name") with
      | some first_name => (stringIntoResponse ("Hello, " ++ first_name ++ "!")).await
      | none => { status := 400, headers := [], body := utf8Encode "Empty first name" })

end HttpQueryParameters

/-! ## The `basic-s3-thumbnail` example handler

Embedded from `examples/basic-s3-thumbnail/src/main.rs`.  The S3 client and
the thumbnailer are external collaborators: they are passed in as arbitrary
functions, so the theorems quantify over every behaviour of theirs. -/

namespace S3Thumbnail

structure S3Bucket where
  name : Option String

structure S3Object where
  key : Option String

structure S3Entity where
  bucket : S3Bucket
  object : S3Object

structure S3EventRecord where
  event_name : Option String
  s3 : S3Entity

structure S3Event where
  records : List S3EventRecord

/-- The `GetFile`/`PutFile` client capabilities. -/
structure S3Client where
  get_file : String → String → Except String (List Nat)
  put_file : String → String → List Nat → Except String String

/-- `get_file_props` (`main.rs` lines 71–87): accept only records whose
event name starts with `ObjectCreated` and whose bucket name and object key
are present and non-empty. -/
def get_file_props (record : S3EventRecord) : Except String (String × String) :=
  match record.event_name.filter (fun s => s.startsWith "ObjectCreated") with
  | none => Except.error "Wrong event"
  | some _ =>
      match record.s3.bucket.name.filter (fun s => !s.isEmpty) with
      | none => Except.error "No bucket name"
      | some bucket =>
          match record.s3.object.key.filter (fun s => !s.isEmpty) with
          | none => Except.error "No object key"
          | some key => Except.ok (bucket, key)

/-- The per-record loop of `function_handler` (`main.rs` lines 31–66): every
failure is logged and the record skipped with `continue`. `thumb` models
`get_thumbnail` (the external thumbnailer). -/
def processRecords (thumb : List Nat → Nat → Except String (List Nat)) (client : S3Client)
    (size : Nat) : List S3EventRecord → Except String Unit
  | [] => Except.ok ()
  | record :: rest =>
      match get_file_props record with
      | Except.error _ => processRecords thumb client size rest
      | Except.ok (bucket, key) =>
          match client.get_file bucket key with
          | Except.error _ => processRecords thumb client size rest
          | Except.ok image =>
              match thumb image size with
              | Except.error _ => processRecords thumb client size rest
              | Except.ok thumbnail =>
                  let thumbs_bucket := bucket ++ "-thumbs"
                  match client.put_file thumbs_bucket key thumbnail with
                  | Except.ok _ => processRecords thumb client size rest
                  | Except.error _ => processRecords thumb client size rest

/-- `function_handler` (`main.rs` lines 24–69). -/
def function_handler (thumb : List Nat → Nat → Except String (List Nat)) (client : S3Client)
    (event : LambdaEvent S3Event) (size : Nat) : Except String Unit :=
  processRecords thumb client size event.payload.records

end S3Thumbnail

/-! ## Concrete fixtures for the scenario theorems and witnesses -/

/-- An execution context as the external loop would hand it in. -/
def ctx0 : LambdaContext := ⟨"test-request-id"⟩

/-- `IntoResponse` conversion of an already-canonical response: immediate. -/
def irId : CanonicalResponse → Fut CanonicalResponse := fun r => ⟨0, r⟩

/-- `IntoResponse` conversion whose body construction suspends once. -/
def irStep : CanonicalResponse → Fut CanonicalResponse := fun r => ⟨1, r⟩

/-- An empty 200 canonical response. -/
def respNil : CanonicalResponse := ⟨200, [], []⟩

/-- A service that answers every canonical request with `respNil` at once. -/
def svc0 : Svc CanonicalResponse String :=
  { ready := fun _ => .Ready (.ok ()), call := fun _ => ⟨0, Except.ok respNil⟩ }

def adapter0 : Adapter CanonicalResponse String := ⟨svc0⟩

/-- A JSON envelope matching no known origin shape. -/
def jUnknownShape : Json := .obj []

/-- A load-balancer-shaped envelope whose base64-flagged body cannot be
decoded. -/
def jBadBase64 : Json :=
  .obj [("requestContext", .obj [("elb", .obj [])]),
        ("httpMethod", .str "GET"), ("path", .str "/"),
        ("body", .str "!!"), ("isBase64Encoded", .bool true)]

/-- The gateway-v2 GET envelope of the spec's scenario, with query
`first_name=Foo`. -/
def jGET : Json :=
  .obj [("requestContext", .obj [("http", .obj [("method", .str "GET")])]),
        ("rawPath", .str "/hello"),
        ("queryStringParameters", .obj [("first_name", .str "Foo")])]

/-- A service wrapping the `http-query-parameters` handler (the handler is
synchronous, so its unit of work completes on the first poll). -/
def svcQP : Svc CanonicalResponse String :=
  { ready := fun _ => .Ready (.ok ()),
    call := fun req => ⟨0, HttpQueryParameters.function_handler req⟩ }

def adapterQP : Adapter CanonicalResponse String := ⟨svcQP⟩

/-- The canonical request the normalizer produces from `jGET` (with the
execution context attached, as `Adapter::call` does). -/
def reqGET : Request :=
  match normalize jGET with
  | Except.ok lr => lr.toRequest.with_lambda_context ctx0
  | Except.error _ => { method := "", path := "", query := [], headers := [], body := [], context := none }

/-- The state machine state `adapterCallRaw adapterQP jGET ctx0` starts in. -/
def stateGET : TransformResponse CanonicalResponse String :=
  .Request .ApiGatewayV2 ⟨0, HttpQueryParameters.function_handler reqGET⟩

/-- A canonical request with a query collection but no `first_name` key. -/
def reqNoFirstName : Request :=
  { method := "GET", path := "/hello", query := [("last_name", ["Foo"])],
    headers := [], body := [], context := none }

/-- A canonical response whose body byte `0xFF` is not valid UTF-8. -/
def respBinary : CanonicalResponse := ⟨200, [], [255]⟩

/-! ## Codec and denormalizer lemmas -/

theorem decChar_encChar : ∀ n, n < 64 → decChar (encChar n) = some n := by decide

theorem encChar_ne_pad : ∀ n, n < 64 → encChar n ≠ '=' := by decide

/-- Base64 round-trip on well-formed bytes. -/
theorem b64decode_b64encode (B : List Nat) (hB : ∀ b ∈ B, b < 256) :
    b64decode (b64encode B) = some B := by
  induction B using b64encode.induct with
  | case1 => simp [b64encode, b64decode]
  | case2 a =>
      have ha : a < 256 := hB a (by simp)
      have h1 : a / 4 < 64 := by omega
      have h2 : a % 4 * 16 < 64 := by omega
      have hm : a % 4 * 16 % 16 = 0 := by omega
      simp [b64encode, b64decode, decChar_encChar _ h1, decChar_encChar _ h2, hm]
      omega
  | case3 a b =>
      have ha : a < 256 := hB a (by simp)
      have hb : b < 256 := hB b (by simp)
      have h1 : a / 4 < 64 := by omega
      have h2 : a % 4 * 16 + b / 16 < 64 := by omega
      have h3 : b % 16 * 4 < 64 := by omega
      have hne3 : encChar (b % 16 * 4) ≠ '=' := encChar_ne_pad _ h3
      have hm : b % 16 * 4 % 4 = 0 := by omega
      simp [b64encode, b64decode, decChar_encChar _ h1, decChar_encChar _ h2,
        decChar_encChar _ h3, hne3, hm]
      omega
  | case4 a b c rest ih =>
      have ha : a < 256 := hB a (by simp)
      have hb : b < 256 := hB b (by simp)
      have hc : c < 256 := hB c (by simp)
      have h1 : a / 4 < 64 := by omega
      have h2 : a % 4 * 16 + b / 16 < 64 := by omega
      have h3 : b % 16 * 4 + c / 64 < 64 := by omega
      have h4 : c % 64 < 64 := by omega
      have hne3 : encChar (b % 16 * 4 + c / 64) ≠ '=' := encChar_ne_pad _ h3
      have hne4 : encChar (c % 64) ≠ '=' := encChar_ne_pad _ h4
      have hrest : ∀ x ∈ rest, x < 256 := by
        intro x hx
        exact hB x (by simp [hx])
      simp [b64encode, b64decode, decChar_encChar _ h1, decChar_encChar _ h2,
        decChar_encChar _ h3, decChar_encChar _ h4, hne3, hne4, ih hrest]
      omega

theorem variant_from_response (origin : RequestOrigin) (resp : CanonicalResponse) :
    (LambdaResponse.from_response origin resp).variant = origin := by
  cases origin <;> rfl

/-! ## Resumption equations of the state machine

One equation per source arm of `TransformResponse::poll`, shared by the
theorems below. -/

variable {R E : Type}

theorem poll_request_pending (ir : R → Fut CanonicalResponse) (o : RequestOrigin)
    (n : Nat) (res : Except E R) :
    TransformResponse.poll ir (.Request o ⟨n + 1, res⟩) =
      (.Pending, .Request o ⟨n, res⟩, 1) := by
  simp [TransformResponse.poll, Fut.poll]

theorem poll_request_error (ir : R → Fut CanonicalResponse) (o : RequestOrigin) (e : E) :
    TransformResponse.poll ir (.Request o ⟨0, Except.error e⟩) =
      (.Ready (.error e), .Request o ⟨0, Except.error e⟩, 1) := by
  simp [TransformResponse.poll, Fut.poll]

theorem poll_request_ok (ir : R → Fut CanonicalResponse) (o : RequestOrigin) (r : R) :
    TransformResponse.poll (E := E) ir (.Request o ⟨0, Except.ok r⟩) =
      ((TransformResponse.poll (E := E) ir (.Response o (ir r))).1,
       (TransformResponse.poll (E := E) ir (.Response o (ir r))).2.1,
       (TransformResponse.poll (E := E) ir (.Response o (ir r))).2.2 + 1) := by
  simp [TransformResponse.poll, Fut.poll]

theorem poll_response_ready (ir : R → Fut CanonicalResponse) (o : RequestOrigin)
    (g : CanonicalResponse) :
    TransformResponse.poll (E := E) ir (.Response o ⟨0, g⟩) =
      (.Ready (.ok (LambdaResponse.from_response o g)), .Response o ⟨0, g⟩, 1) := by
  simp [TransformResponse.poll, Fut.poll]

theorem poll_response_pending (ir : R → Fut CanonicalResponse) (o : RequestOrigin)
    (m : Nat) (g : CanonicalResponse) :
    TransformResponse.poll (E := E) ir (.Response o ⟨m + 1, g⟩) =
      (.Pending, .Response o ⟨m, g⟩, 1) := by
  simp [TransformResponse.poll, Fut.poll]

theorem poll_response_origin (ir : R → Fut CanonicalResponse) (o : RequestOrigin)
    (g : Fut CanonicalResponse) :
    ((TransformResponse.poll (E := E) ir (.Response o g)).2.1).origin = o := by
  cases g with
  | mk p r =>
      cases p with
      | zero => rw [poll_response_ready]; rfl
      | succ m => rw [poll_response_pending]; rfl

theorem poll_response_stays (ir : R → Fut CanonicalResponse) (o : RequestOrigin)
    (g : Fut CanonicalResponse) :
    ((TransformResponse.poll (E := E) ir (.Response o g)).2.1).isRequestState = false := by
  cases g with
  | mk p r =>
      cases p with
      | zero => rw [poll_response_ready]; rfl
      | succ m => rw [poll_response_pending]; rfl

theorem poll_origin (ir : R → Fut CanonicalResponse) (s : TransformResponse R E) :
    ((TransformResponse.poll ir s).2.1).origin = s.origin := by
  cases s with
  | Request o f =>
      cases f with
      | mk p res =>
          cases p with
          | zero =>
              cases res with
              | error e => rw [poll_request_error]
              | ok r => rw [poll_request_ok]; exact poll_response_origin ir o (ir r)
          | succ n => rw [poll_request_pending]; rfl
  | Response o g => exact poll_response_origin ir o g

theorem allValues_of_absent (m : QueryMap) (k : String) (h : ∀ p ∈ m, p.1 ≠ k) :
    m.allValues k = [] := by
  unfold QueryMap.allValues
  have hf : List.filter (fun p => p.1 = k) m = [] := by
    rw [List.filter_eq_nil_iff]
    intro p hp
    simpa using h p hp
  rw [hf]
  rfl

theorem processRecords_ok (thumb : List Nat → Nat → Except String (List Nat))
    (client : S3Thumbnail.S3Client) (size : Nat) (recs : List S3Thumbnail.S3EventRecord) :
    S3Thumbnail.processRecords thumb client size recs = Except.ok () := by
  induction recs with
  | nil => rfl
  | cons record rest ih =>
      rw [S3Thumbnail.processRecords]
      split
      · exact ih
      · split
        · exact ih
        · split
          · exact ih
          · dsimp only
            split
            · exact ih
            · exact ih

theorem from_response_fields (o : RequestOrigin) (resp : CanonicalResponse) :
    (LambdaResponse.from_response o resp).is_base64_encoded
        = (encodeResponseBody resp.body).2
    ∧ (LambdaResponse.from_response o resp).bodyField
        = (encodeResponseBody resp.body).1
    ∧ (LambdaResponse.from_response o resp).statusCode = resp.status := by
  cases o <;> exact ⟨rfl, rfl, rfl⟩

theorem encodeResponseBody_invalid (body : List Nat) (hu : utf8Decode body = none) :
    encodeResponseBody body = (some (String.mk (b64encode body)), true) := by
  unfold encodeResponseBody
  rw [hu]

theorem encodeResponseBody_valid (body : List Nat) (cs : List Char)
    (hu : utf8Decode body = some cs) :
    encodeResponseBody body = (some (String.mk cs), false) := by
  unfold encodeResponseBody
  rw [hu]

/-! ## Claim theorems -/

/-- C1: the Origin tag recorded when `Adapter::call` normalizes the incoming
envelope is carried unchanged through both states of the `TransformResponse`
state machine and is the tag passed to the response denormalizer, so the
reply envelope variant always matches the origin of the request: (1) the
initial state carries the payload's origin tag; (2) every resumption
preserves the carried tag; (3) the terminal output applies `from_response`
to exactly the carried tag; (4) the envelope `from_response` builds is
always shaped for the tag it was given. -/
theorem origin_tag_invariant {R E : Type} :
    (∀ (a : Adapter R E) (ev : LambdaEvent LambdaRequest),
        (a.call ev).origin = ev.payload.request_origin)
    ∧ (∀ (ir : R → Fut CanonicalResponse) (s : TransformResponse R E),
        ((TransformResponse.poll ir s).2.1).origin = s.origin)
    ∧ (∀ (ir : R → Fut CanonicalResponse) (o : RequestOrigin) (g : CanonicalResponse),
        TransformResponse.poll (E := E) ir (.Response o ⟨0, g⟩) =
          (.Ready (.ok (LambdaResponse.from_response o g)), .Response o ⟨0, g⟩, 1))
    ∧ (∀ (o : RequestOrigin) (resp : CanonicalResponse),
        (LambdaResponse.from_response o resp).variant = o) :=
  ⟨fun _ _ => rfl, fun ir s => poll_origin ir s,
   fun ir o g => poll_response_ready ir o g,
   fun o resp => variant_from_response o resp⟩

/-- C2: when the handler's in-flight future completes with an error, the
state machine completes immediately with that same error, performs no
further inner poll (the count is 1), stays out of the response-conversion
state, and its output carries no reply envelope. -/
theorem handler_error_short_circuits {R E : Type} :
    ∀ (ir : R → Fut CanonicalResponse) (o : RequestOrigin) (e : E),
      TransformResponse.poll ir (.Request o ⟨0, Except.error e⟩) =
        (.Ready (.error e), .Request o ⟨0, Except.error e⟩, 1)
      ∧ ((TransformResponse.poll ir
            (.Request o ⟨0, Except.error e⟩)).2.1).isRequestState = true := by
  intro ir o e
  refine ⟨poll_request_error ir o e, ?_⟩
  rw [poll_request_error]
  rfl

/-- C4 counterexample: a resumption that advances BOTH inner units of work.
With the handler's future completing at once and a conversion future that
suspends, a single external poll completes the handler's future, transitions
to the conversion state and also polls the conversion future (two inner
polls, and the conversion future's remaining suspensions drop from 1 to 0),
refuting "exactly one inner unit of work, never both, is advanced". -/
theorem single_advance_counterexample :
    TransformResponse.poll (E := String) irStep
        (.Request .ApiGatewayV2 ⟨0, Except.ok respNil⟩) =
      (.Pending, .Response .ApiGatewayV2 ⟨0, respNil⟩, 2) := by
  rw [poll_request_ok]
  have h : irStep respNil = ⟨1, respNil⟩ := rfl
  rw [h, poll_response_pending]

/-- C4 amended: each resumption polls the inner future of the current state
exactly once, except when the machine is awaiting the handler and the
handler's future completes successfully: then it transitions to the
conversion state and additionally polls the conversion future within the
same resumption; and that successful completion is the only way the machine
leaves the awaiting-handler state. -/
theorem resumption_advance_characterized {R E : Type} :
    ∀ (ir : R → Fut CanonicalResponse) (o : RequestOrigin) (n : Nat)
      (res : Except E R) (e : E) (r : R) (g : Fut CanonicalResponse),
      TransformResponse.poll ir (.Request o ⟨n + 1, res⟩) =
        (.Pending, .Request o ⟨n, res⟩, 1)
      ∧ TransformResponse.poll ir (.Request o ⟨0, Except.error e⟩) =
          (.Ready (.error e), .Request o ⟨0, Except.error e⟩, 1)
      ∧ (TransformResponse.poll (E := E) ir (.Request o ⟨0, Except.ok r⟩)).2.2 =
          (TransformResponse.poll (E := E) ir (.Response o (ir r))).2.2 + 1
      ∧ (TransformResponse.poll (E := E) ir (.Response o g)).2.2 = 1
      ∧ ((TransformResponse.poll (E := E) ir
            (.Request o ⟨0, Except.ok r⟩)).2.1).isRequestState = false := by
  intro ir o n res e r g
  refine ⟨poll_request_pending ir o n res, poll_request_error ir o e, ?_, ?_, ?_⟩
  · rw [poll_request_ok]
  · cases g with
    | mk p gr =>
        cases p with
        | zero => rw [poll_response_ready]
        | succ m => rw [poll_response_pending]
  · rw [poll_request_ok]
    exact poll_response_stays ir o (ir r)

/-- C6: `Adapter::poll_ready` returns exactly the wrapped service's
readiness result on the same task context, adding nothing of its own. -/
theorem adapter_poll_ready_forwards {R E : Type} :
    ∀ (a : Adapter R E) (cx : Nat), a.poll_ready cx = a.service.ready cx :=
  fun _ _ => rfl

/-- C9: the state progression is monotone — polling in the conversion state
never returns to the awaiting-handler state (and keeps the origin) — and a
Pending result from the currently active inner future leaves the machine in
the same state (same constructor, same origin, only that future's remaining
suspensions consumed) with the whole poll returning Pending. -/
theorem state_progression_monotone {R E : Type} :
    ∀ (ir : R → Fut CanonicalResponse) (o : RequestOrigin) (g : Fut CanonicalResponse)
      (n m : Nat) (res : Except E R) (gr : CanonicalResponse),
      ((TransformResponse.poll (E := E) ir (.Response o g)).2.1).isRequestState = false
      ∧ ((TransformResponse.poll (E := E) ir (.Response o g)).2.1).origin = o
      ∧ TransformResponse.poll ir (.Request o ⟨n + 1, res⟩) =
          (.Pending, .Request o ⟨n, res⟩, 1)
      ∧ TransformResponse.poll (E := E) ir (.Response o ⟨m + 1, gr⟩) =
          (.Pending, .Response o ⟨m, gr⟩, 1) :=
  fun ir o g n m res gr =>
    ⟨poll_response_stays ir o g, poll_response_origin ir o g,
     poll_request_pending ir o n res, poll_response_pending ir o m gr⟩

/-- C3: an incoming envelope that fails normalization (no recognizable
origin shape, or an undecodable base64-flagged body) makes the adapter
report the normalization error immediately, and the result is independent
of the wrapped service — the handler is never invoked. -/
theorem normalization_failure_is_immediate {R E : Type} :
    ∀ (a : Adapter R E) (j : Json) (ctx : LambdaContext) (e : String),
      normalize j = Except.error e →
        adapterCallRaw a j ctx = Except.error e
        ∧ ∀ a2 : Adapter R E, adapterCallRaw a j ctx = adapterCallRaw a2 j ctx := by
  intro a j ctx e h
  constructor
  · unfold adapterCallRaw
    rw [h]
  · intro a2
    unfold adapterCallRaw
    rw [h]

/-- C3 witness: a shapeless envelope and a load-balancer envelope with an
undecodable base64 body both fail normalization, and the adapter reports
exactly those errors. -/
theorem normalization_failure_is_immediate_witness :
    normalize jUnknownShape
        = Except.error "StructuralParseError: unrecognized envelope shape"
    ∧ adapterCallRaw adapter0 jUnknownShape ctx0
        = Except.error "StructuralParseError: unrecognized envelope shape"
    ∧ normalize jBadBase64 = Except.error "StructuralParseError: invalid base64 body"
    ∧ adapterCallRaw adapter0 jBadBase64 ctx0
        = Except.error "StructuralParseError: invalid base64 body" :=
  ⟨by decide,
   (normalization_failure_is_immediate adapter0 jUnknownShape ctx0 _ (by decide)).1,
   by decide,
   (normalization_failure_is_immediate adapter0 jBadBase64 ctx0 _ (by decide)).1⟩

/-- C5: base64 decode∘encode is the identity on byte bodies, and the
denormalizer derives the base64 flag and body encoding from the response
body content alone — flag true with a base64 body exactly when the bytes
are not valid UTF-8 (and decoding that body reproduces the bytes), flag
false with the plain text otherwise.  `from_response` takes no request
input, so the request's flag cannot influence the choice. -/
theorem base64_roundtrip_and_body_encoding :
    (∀ B : List Nat, (∀ b ∈ B, b < 256) → b64decode (b64encode B) = some B)
    ∧ ∀ (o : RequestOrigin) (resp : CanonicalResponse),
        (LambdaResponse.from_response o resp).is_base64_encoded
            = (utf8Decode resp.body).isNone
        ∧ ((utf8Decode resp.body).isNone →
            (LambdaResponse.from_response o resp).bodyField
              = some (String.mk (b64encode resp.body)))
        ∧ (∀ cs, utf8Decode resp.body = some cs →
            (LambdaResponse.from_response o resp).bodyField = some (String.mk cs)
            ∧ (LambdaResponse.from_response o resp).is_base64_encoded = false)
        ∧ ((∀ b ∈ resp.body, b < 256) → (utf8Decode resp.body).isNone →
            ((LambdaResponse.from_response o resp).bodyField.map
                (fun s => b64decode s.data)) = some (some resp.body)) := by
  refine ⟨b64decode_b64encode, ?_⟩
  intro o resp
  rcases hu : utf8Decode resp.body with _ | cs
  · have henc := encodeResponseBody_invalid resp.body hu
    refine ⟨?_, fun _ => ?_, ?_, fun hB _ => ?_⟩
    · rw [(from_response_fields o resp).1, henc]
      rfl
    · rw [(from_response_fields o resp).2.1, henc]
    · intro cs hcs
      cases hcs
    · rw [(from_response_fields o resp).2.1, henc]
      show some (b64decode (b64encode resp.body)) = some (some resp.body)
      rw [b64decode_b64encode resp.body hB]
  · have henc := encodeResponseBody_valid resp.body cs hu
    refine ⟨?_, ?_, ?_, ?_⟩
    · rw [(from_response_fields o resp).1, henc]
      rfl
    · intro hnone
      simp at hnone
    · intro cs2 hcs
      cases hcs
      exact ⟨by rw [(from_response_fields o resp).2.1, henc],
             by rw [(from_response_fields o resp).1, henc]⟩
    · intro _ hnone
      simp at hnone

/-- C5 witness: the round trip at bytes `[0, 255, 128]`, and the
denormalizer at a response whose single body byte `0xFF` is not UTF-8:
the flag is set and decoding the emitted body restores the byte. -/
theorem base64_roundtrip_and_body_encoding_witness :
    (∀ b ∈ [0, 255, 128], b < 256)
    ∧ b64decode (b64encode [0, 255, 128]) = some [0, 255, 128]
    ∧ (utf8Decode respBinary.body).isNone = true
    ∧ (LambdaResponse.from_response .Alb respBinary).is_base64_encoded = true
    ∧ ((LambdaResponse.from_response .Alb respBinary).bodyField.map
        (fun s => b64decode s.data)) = some (some respBinary.body) :=
  ⟨by decide,
   base64_roundtrip_and_body_encoding.1 [0, 255, 128] (by decide),
   by decide,
   by rw [(base64_roundtrip_and_body_encoding.2 .Alb respBinary).1]; decide,
   (base64_roundtrip_and_body_encoding.2 .Alb respBinary).2.2.2 (by decide) (by decide)⟩

/-- C7: the gateway-v2 GET scenario with query `first_name=Foo` — the
handler answers 200 `Hello, Foo!`, and driving the adapter's state machine
over the normalized envelope yields a gateway-v2 reply envelope with status
200, body `Hello, Foo!` and the base64 flag false. -/
theorem gateway_v2_hello_scenario :
    HttpQueryParameters.function_handler reqGET =
      Except.ok { status := 200, headers := [], body := utf8Encode "Hello, Foo!" }
    ∧ adapterCallRaw adapterQP jGET ctx0 = Except.ok stateGET
    ∧ (TransformResponse.poll irId stateGET).1 =
        Poll.Ready (Except.ok (LambdaResponse.ApiGatewayV2
          { status_code := 200, headers := [], body := some "Hello, Foo!",
            is_base64_encoded := false })) := by
  have h : HttpQueryParameters.function_handler reqGET =
      Except.ok { status := 200, headers := [], body := utf8Encode "Hello, Foo!" } := by
    decide
  refine ⟨h, by decide, ?_⟩
  show (TransformResponse.poll irId
      (.Request .ApiGatewayV2 ⟨0, HttpQueryParameters.function_handler reqGET⟩)).1 = _
  rw [h, poll_request_ok]
  have hid : irId { status := 200, headers := [], body := utf8Encode "Hello, Foo!" } =
      ⟨0, { status := 200, headers := [], body := utf8Encode "Hello, Foo!" }⟩ := rfl
  rw [hid, poll_response_ready]
  decide

/-- C8: a lookup for an absent query parameter returns no value (an empty
option, not an error), and whenever the `first_name` lookup chain yields no
value the handler returns 400 with body `Empty first name` (wrapped in
`Ok`, so the absence is not an error either). -/
theorem absent_first_name_yields_400 :
    (∀ (m : QueryMap) (k : String), (∀ p ∈ m, p.1 ≠ k) → QueryMap.first m k = none)
    ∧ ∀ event : Request,
        event.query_string_parameters_ref.bind
            (fun params => QueryMap.first params "first_name") = none →
          HttpQueryParameters.function_handler event =
            Except.ok { status := 400, headers := [],
                        body := utf8Encode "Empty first name" } := by
  constructor
  · intro m k h
    unfold QueryMap.first
    rw [allValues_of_absent m k h]
    rfl
  · intro event h
    unfold HttpQueryParameters.function_handler
    rw [h]

/-- C8 witness: a request whose query collection has no `first_name` key —
the lookup returns no value and the handler answers 400. -/
theorem absent_first_name_yields_400_witness :
    (∀ p ∈ reqNoFirstName.query, p.1 ≠ "first_name")
    ∧ QueryMap.first reqNoFirstName.query "first_name" = none
    ∧ reqNoFirstName.query_string_parameters_ref.bind
        (fun params => QueryMap.first params "first_name") = none
    ∧ HttpQueryParameters.function_handler reqNoFirstName =
        Except.ok { status := 400, headers := [],
                    body := utf8Encode "Empty first name" } :=
  ⟨by decide,
   absent_first_name_yields_400.1 reqNoFirstName.query "first_name" (by decide),
   by decide,
   absent_first_name_yields_400.2 reqNoFirstName (by decide)⟩

/-- C10: the thumbnail handler returns `Ok(())` for every S3 event and every
behaviour of the supplied client and thumbnailer — every per-record failure
(wrong event name, missing or empty bucket or key, failed download,
thumbnailing or upload) is skipped, never propagated. -/
theorem thumbnail_handler_always_ok :
    ∀ (thumb : List Nat → Nat → Except String (List Nat))
      (client : S3Thumbnail.S3Client)
      (event : LambdaEvent S3Thumbnail.S3Event) (size : Nat),
      S3Thumbnail.function_handler thumb client event size = Except.ok () :=
  fun thumb client event size =>
    processRecords_ok thumb client size event.payload.records

end LambdaHttp
